import Mathlib

/-!
Verification of the trust-and-resolution core of a Discord/OpenCode bridge:
the file-access guard, the session store operations, the channel-resolution
policy, and the session schema lifecycle. Each definition is a shallow
embedding of the corresponding TypeScript function; filesystem and SQLite
effects are made explicit as state records passed to and returned from the
embedded functions.
-/

set_option maxRecDepth 4096

/-- JavaScript truthiness of a `string | undefined` value: an absent value and
the empty string are falsy, every other string is truthy. -/
def strTruthy : Option String → Bool
  | some s => s ≠ ""
  | none => false

/-- The JavaScript expression `x || null` on a `string | null | undefined`
value: an empty string collapses to null. -/
def jsStrOrNull : Option String → Option String
  | some s => if s = "" then none else some s
  | none => none

/-- The JavaScript expression `x || d` on a `string | null | undefined`
value with a string fallback `d`. -/
def jsStrOrElse (x : Option String) (d : String) : String :=
  match jsStrOrNull x with
  | some s => s
  | none => d

/-! ## File-access guard (embedding of the `file-security` module) -/

/-- The constant `MAX_FILE_BYTES = 8 * 1024 * 1024` from the source. -/
def MAX_FILE_BYTES : Nat := 8 * 1024 * 1024

/-- The regex replacement applied to each allowed entry, `replace(/\/+$/, '')`:
strip every trailing slash (computed on the character list so that concrete
instances reduce). -/
def stripTrailingSlashes (p : String) : String :=
  String.mk ((p.data.reverse.dropWhile (fun c => c == '/')).reverse)

/-- JavaScript `s.startsWith(pre)`, as character-list prefixing. -/
def strStartsWith (s pre : String) : Bool :=
  pre.data.isPrefixOf s.data

/-- Embedding of `isPathAllowed(realPath, allowedPrefixes)`: after stripping
trailing slashes from each allowed entry, the real path must equal one entry
or start with an entry followed by `/`. -/
def isPathAllowed (realPath : String) (allowedPrefixes : List String) : Bool :=
  (allowedPrefixes.map stripTrailingSlashes).any
    (fun pre => realPath == pre || strStartsWith realPath (pre ++ "/"))

/-- Containment of one character list in another, checked at each suffix. -/
def charListContains (pat : List Char) : List Char → Bool
  | [] => pat.isEmpty
  | c :: tl => pat.isPrefixOf (c :: tl) || charListContains pat tl

/-- JavaScript `s.includes(pat)`, as character-list infix containment. -/
def strIncludes (s pat : String) : Bool :=
  charListContains pat.data s.data

/-- Embedding of `validateRealPath(realPath)`: a canonical path containing
` (deleted)` means the file was removed after opening. -/
def validateRealPath (realPath : String) : Option String :=
  if strIncludes realPath " (deleted)" then some "Error: File was deleted"
  else none

/-- The fields of `fs.Stats` inspected by `validateFileStats`. -/
structure FileStats where
  isFile : Bool
  nlink : Nat
  size : Nat
deriving Repr, DecidableEq

/-- JavaScript `Number.prototype.toFixed(0)` applied to `bytes / 1024 / 1024`:
round-half-up of `bytes / 2^20` (exact on inputs where binary floating point
introduces no tie-breaking error, which covers all values used here). -/
def mbFixed0 (bytes : Nat) : String :=
  toString ((bytes + 524288) / 1048576)

/-- Left-pad a value below 100 to two decimal digits. -/
def pad2 (n : Nat) : String :=
  if n < 10 then "0" ++ toString n else toString n

/-- JavaScript `Number.prototype.toFixed(2)` applied to `bytes / 1024 / 1024`:
round-half-up of `100 * bytes / 2^20`, rendered with two decimals. -/
def mbFixed2 (bytes : Nat) : String :=
  let hundredths := (bytes * 100 + 524288) / 1048576
  toString (hundredths / 100) ++ "." ++ pad2 (hundredths % 100)

/-- Embedding of `validateFileStats(stats, maxBytes)`: reject a non-regular
file, a file with more than one hard link, and a file over the size limit,
each with its descriptive message; otherwise return no error. -/
def validateFileStats (stats : FileStats) (maxBytes : Nat) : Option String :=
  if !stats.isFile then
    some "Error: Not a regular file"
  else if stats.nlink > 1 then
    some ("Error: File has multiple hardlinks (" ++ toString stats.nlink ++
      "), refusing for security")
  else if stats.size > maxBytes then
    some ("Error: File exceeds " ++ mbFixed0 maxBytes ++ "MB limit (" ++
      mbFixed2 stats.size ++ "MB)")
  else
    none

/-- The filesystem effects observed by one `validateFileAccess` call on one
path: whether `openSync` succeeds, what `realpathSync('/proc/self/fd/' + fd)`
returns for the opened descriptor, the descriptor's `fstatSync` result and
content, and what the two default sandbox prefixes
(`realpathSync(resolve(homedir(), 'projects'))` and `realpathSync('/tmp')`)
canonicalize to when the caller supplies no prefix list. -/
structure FsModel where
  openOk : Bool
  openErrMsg : String
  fdRealPathOk : Bool
  fdRealPathErrMsg : String
  fdRealPath : String
  stats : FileStats
  content : List Nat
  defaultsResolve : Bool
  homeProjectsReal : String
  tmpReal : String
deriving Repr, DecidableEq

/-- The `FileAccessResult` shape `{error: string | null, buffer?, realPath?}`. -/
inductive FileAccessResult where
  | err (msg : String)
  | ok (buffer : List Nat) (realPath : String)
deriving Repr, DecidableEq

/-- Embedding of `validateFileAccess(filePath, allowedPrefixes, maxBytes)`,
instrumented with a flag recording whether `readFileSync` executed. The
checks run in source order: open by descriptor, canonicalize the descriptor's
path, deleted-file check, prefix containment (substituting the default
prefixes when the supplied list is absent or empty), regular-file /
hardlink / size checks, and only then the read. -/
def validateFileAccessT (fs : FsModel) (allowedPrefixes : Option (List String))
    (maxBytes : Nat) : FileAccessResult × Bool :=
  if !fs.openOk then
    (.err ("Error: Cannot open file: " ++ fs.openErrMsg), false)
  else if !fs.fdRealPathOk then
    (.err ("Error: Cannot resolve file path: " ++ fs.fdRealPathErrMsg), false)
  else
    match validateRealPath fs.fdRealPath with
    | some e => (.err e, false)
    | none =>
      let resolvedPrefixes : Option (List String) :=
        match allowedPrefixes with
        | some ps =>
          if ps.isEmpty then
            if fs.defaultsResolve then some [fs.homeProjectsReal, fs.tmpReal] else none
          else some ps
        | none =>
          if fs.defaultsResolve then some [fs.homeProjectsReal, fs.tmpReal] else none
      match resolvedPrefixes with
      | none => (.err "Error: Server configuration error - allowed paths not resolvable", false)
      | some ps =>
        if !isPathAllowed fs.fdRealPath ps then
          (.err ("Error: File must be in allowed directory. Real path: " ++ fs.fdRealPath), false)
        else
          match validateFileStats fs.stats maxBytes with
          | some e => (.err e, false)
          | none => (.ok fs.content fs.fdRealPath, true)

/-- The result of `validateFileAccess` as the caller sees it. -/
def validateFileAccess (fs : FsModel) (allowedPrefixes : Option (List String))
    (maxBytes : Nat) : FileAccessResult :=
  (validateFileAccessT fs allowedPrefixes maxBytes).1

/-! ## Session store and channel resolution (embedding of the session module) -/

/-- The configuration fields of `PluginConfig` consumed by the session
module. `databasePath` is optional so that `openSessionDb`'s
missing-path failure is representable. -/
structure PluginConfig where
  enableSessionStore : Bool
  requireRemoteApproval : Bool
  defaultChannelId : Option String
  databasePath : Option String
deriving Repr, DecidableEq

/-- One row of the `sessions` table, with every column of the data model.
`remote_allowed` is the 0/1 integer column. -/
structure SessionRow where
  id : String
  discord_thread_id : Option String
  discord_channel_id : Option String
  user_id : String
  state : String
  agent_type : String
  created_at : Nat
  updated_at : Nat
  opencode_session_id : Option String
  project_path : Option String
  project_name : Option String
  context_encrypted : Option String
  context_iv : Option String
  context_tag : Option String
  remote_allowed : Nat
deriving Repr, DecidableEq

/-- The SQLite effects observed by the session module at one store path:
whether opening the database succeeds, whether write statements succeed,
whether the `remote_allowed` column is (known to be) present, and the table
rows. -/
structure SessionStoreState where
  reachable : Bool
  writable : Bool
  hasCol : Bool
  rows : List SessionRow
deriving Repr, DecidableEq

/-- Opening the store (`openSessionDb`) succeeds exactly when a database path is configured and
the store file can be opened. -/
def canOpen (config : PluginConfig) (store : SessionStoreState) : Bool :=
  config.databasePath.isSome && store.reachable

/-- The `{threadId, remoteAllowed}` object produced by a session lookup. -/
structure SessionLookup where
  threadId : Option String
  remoteAllowed : Bool
deriving Repr, DecidableEq

/-- First row matching `opencode_session_id = key` (the SQL `.get`). -/
def findSessionRow (rows : List SessionRow) (key : Option String) : Option SessionRow :=
  rows.find? (fun r => r.opencode_session_id == key)

/-- Embedding of `getThreadIdFromSession(config, opencodeSessionId)`: null
for an absent/empty key, a disabled session feature, or an unreachable store
(the open failure is caught and logged); otherwise the first matching row's
thread id (with `|| null` collapsing an empty id) and, when the
`remote_allowed` column is present, whether that column equals 1. -/
def getThreadIdFromSession (config : PluginConfig) (store : SessionStoreState)
    (opencodeSessionId : Option String) : Option SessionLookup :=
  if !strTruthy opencodeSessionId then none
  else if !config.enableSessionStore then none
  else if !canOpen config store then none
  else
    let row? := findSessionRow store.rows opencodeSessionId
    if store.hasCol then
      some { threadId := jsStrOrNull (row?.bind (fun r => r.discord_thread_id))
           , remoteAllowed := (match row? with
               | some r => r.remote_allowed == 1
               | none => false) }
    else
      some { threadId := jsStrOrNull (row?.bind (fun r => r.discord_thread_id))
           , remoteAllowed := false }

/-- The fields of `ToolContext` (only `sessionID` is read by the resolver;
the rest are carried to state independence properties faithfully). -/
structure ToolContext where
  agent : Option String
  sessionID : Option String
  messageID : Option String
  userId : Option String
  channelId : Option String
  threadId : Option String
deriving Repr, DecidableEq

/-- The `ResolvedChannel` result `{channelId, fromSession}`. -/
structure ResolvedChannel where
  channelId : String
  fromSession : Bool
deriving Repr, DecidableEq

/-- The "not approved" failure message thrown by the resolver. -/
def notApprovedMsg : String :=
  "Remote Discord continuation is not approved for this session. " ++
    "Ask the user to approve remote Discord usage or provide channel_id."

/-- The "cannot resolve" failure message thrown by the resolver. -/
def cannotResolveMsg : String :=
  "Could not resolve channel from session or args. " ++
    "Ensure this is running in an approved session or provide channel_id."

/-- The session-bound branch of `resolveChannelId` (its PRIORITY 1 block):
`some` when the block returns or throws, `none` when control falls through
to the explicit/default fallbacks. -/
def sessionResolution (config : PluginConfig) (store : SessionStoreState)
    (explicitChannelId : Option String) (context : ToolContext)
    (requireRemoteApproval : Bool) : Option (Except String ResolvedChannel) :=
  if config.enableSessionStore && strTruthy context.sessionID then
    match getThreadIdFromSession config store context.sessionID with
    | some session =>
      match session.threadId with
      | some tid =>
        if requireRemoteApproval && config.requireRemoteApproval && !session.remoteAllowed then
          if strTruthy explicitChannelId then
            some (.ok { channelId := explicitChannelId.getD "", fromSession := false })
          else
            some (.error notApprovedMsg)
        else
          some (.ok { channelId := tid, fromSession := true })
      | none => none
    | none => none
  else
    none

/-- Embedding of
`resolveChannelId(config, explicitChannelId, context, requireRemoteApproval, preferExplicit)`.
A thrown `Error` is an `Except.error` carrying the message. -/
def resolveChannelId (config : PluginConfig) (store : SessionStoreState)
    (explicitChannelId : Option String) (context : ToolContext)
    (requireRemoteApproval : Bool) (preferExplicit : Bool) :
    Except String ResolvedChannel :=
  if preferExplicit && strTruthy explicitChannelId then
    .ok { channelId := explicitChannelId.getD "", fromSession := false }
  else
    match sessionResolution config store explicitChannelId context requireRemoteApproval with
    | some r => r
    | none =>
      if strTruthy explicitChannelId then
        .ok { channelId := explicitChannelId.getD "", fromSession := false }
      else if strTruthy config.defaultChannelId then
        .ok { channelId := config.defaultChannelId.getD "", fromSession := false }
      else
        .error cannotResolveMsg

/-- Embedding of `ensureRemoteApprovalColumn`'s effect on the store state:
nothing if the column is already known present; otherwise the `ALTER TABLE`
adds it when the store is writable, and on failure the error is swallowed
(logged) leaving the state unchanged. -/
def ensureRemoteApprovalColumn (store : SessionStoreState) : SessionStoreState :=
  if store.hasCol then store
  else if store.writable then { store with hasCol := true }
  else store

/-- The `UPDATE sessions SET remote_allowed = 1 WHERE opencode_session_id = ?`
statement applied to the rows. -/
def approveRows (rows : List SessionRow) (key : String) : List SessionRow :=
  rows.map (fun r =>
    if r.opencode_session_id = some key then { r with remote_allowed := 1 } else r)

/-- Embedding of `approveRemoteSession(config, opencodeSessionId)`: false if
the session feature is disabled; false (via the catch) if the store cannot be
opened or the update statement fails (read-only store or still-missing
column); otherwise the matching rows get `remote_allowed = 1` and the result
is true even when zero rows matched. -/
def approveRemoteSession (config : PluginConfig) (store : SessionStoreState)
    (opencodeSessionId : String) : Bool × SessionStoreState :=
  if !config.enableSessionStore then (false, store)
  else if !canOpen config store then (false, store)
  else
    let store1 := ensureRemoteApprovalColumn store
    if store1.hasCol && store1.writable then
      (true, { store1 with rows := approveRows store1.rows opencodeSessionId })
    else (false, store1)

/-- The fields of the `ThreadChannel` argument read by registration. -/
structure ThreadRef where
  id : String
  parentId : Option String
  ownerId : Option String
deriving Repr, DecidableEq

/-- The row inserted by `registerThreadSession`: a fresh id, the thread and
parent ids, owner (`|| 'unknown'`), `state = 'idle'`, both timestamps set to
now, every reserved column null and `remote_allowed = 0`. -/
def newSessionRow (thread : ThreadRef) (agentType : String) (sessionId : String)
    (now : Nat) : SessionRow :=
  { id := sessionId
  , discord_thread_id := some thread.id
  , discord_channel_id := thread.parentId
  , user_id := jsStrOrElse thread.ownerId "unknown"
  , state := "idle"
  , agent_type := agentType
  , created_at := now
  , updated_at := now
  , opencode_session_id := none
  , project_path := none
  , project_name := none
  , context_encrypted := none
  , context_iv := none
  , context_tag := none
  , remote_allowed := 0 }

/-- Embedding of `registerThreadSession(config, thread, agentType)`, with the
generated `randomUUID()` and `Date.now()` passed explicitly. Null (and an
unchanged row set) on a disabled feature or any store failure; on success the
new row is appended. The insert fails on a duplicate primary key and on a
null parent id (`discord_channel_id` is NOT NULL). -/
def registerThreadSession (config : PluginConfig) (store : SessionStoreState)
    (thread : ThreadRef) (agentType : String) (sessionId : String) (now : Nat) :
    Option String × SessionStoreState :=
  if !config.enableSessionStore then (none, store)
  else if !canOpen config store then (none, store)
  else if !store.writable then (none, store)
  else
    let store1 := ensureRemoteApprovalColumn store
    if store1.rows.any (fun r => r.id == sessionId) then (none, store1)
    else if thread.parentId.isNone then (none, store1)
    else
      (some sessionId,
       { store1 with rows := store1.rows ++ [newSessionRow thread agentType sessionId now] })

/-! ## Schema lifecycle (embedding of the schema module) -/

/-- A column of the `sessions` table: name, SQL type, NOT NULL flag, and the
literal default expression if any. -/
structure ColumnDef where
  name : String
  sqlType : String
  notNull : Bool
  dflt : Option String
deriving Repr, DecidableEq

/-- The column list of `CREATE_SESSIONS_TABLE`, in source order. -/
def sessionsTableColumns : List ColumnDef :=
  [ { name := "id", sqlType := "TEXT", notNull := false, dflt := none }
  , { name := "project_path", sqlType := "TEXT", notNull := false, dflt := none }
  , { name := "project_name", sqlType := "TEXT", notNull := false, dflt := none }
  , { name := "discord_thread_id", sqlType := "TEXT", notNull := false, dflt := none }
  , { name := "discord_channel_id", sqlType := "TEXT", notNull := true, dflt := none }
  , { name := "user_id", sqlType := "TEXT", notNull := true, dflt := none }
  , { name := "state", sqlType := "TEXT", notNull := true, dflt := some "idle" }
  , { name := "agent_type", sqlType := "TEXT", notNull := true, dflt := none }
  , { name := "created_at", sqlType := "INTEGER", notNull := true, dflt := none }
  , { name := "updated_at", sqlType := "INTEGER", notNull := true, dflt := none }
  , { name := "opencode_session_id", sqlType := "TEXT", notNull := false, dflt := none }
  , { name := "context_encrypted", sqlType := "TEXT", notNull := false, dflt := none }
  , { name := "context_iv", sqlType := "TEXT", notNull := false, dflt := none }
  , { name := "context_tag", sqlType := "TEXT", notNull := false, dflt := none }
  , { name := "remote_allowed", sqlType := "INTEGER", notNull := true, dflt := some "0" } ]

/-- The schema state of the store at one path: the `sessions` table's columns
when the table exists, the index names, and whether write-ahead-log mode has
been enabled. -/
structure DbSchema where
  sessionsTable : Option (List ColumnDef)
  indexes : List String
  walMode : Bool
deriving Repr, DecidableEq

/-- A fresh store file: no table, no index, rollback-journal mode. -/
def freshSchema : DbSchema :=
  { sessionsTable := none, indexes := [], walMode := false }

/-- The statement `CREATE INDEX IF NOT EXISTS`: record the index name if absent. -/
def createIndexIfAbsent (indexes : List String) (n : String) : List String :=
  if n ∈ indexes then indexes else indexes ++ [n]

/-- Embedding of `bootstrapSchema(dbPath)` on a store the process can open
and write: enable write-ahead-log mode, `CREATE TABLE IF NOT EXISTS sessions`
with the full column list, and `CREATE INDEX IF NOT EXISTS` for the
correlation-key and thread-id indexes. -/
def bootstrapSchema (s : DbSchema) : DbSchema :=
  { sessionsTable := some (s.sessionsTable.getD sessionsTableColumns)
  , indexes :=
      createIndexIfAbsent
        (createIndexIfAbsent s.indexes "idx_sessions_opencode_session_id")
        "idx_sessions_discord_thread_id"
  , walMode := true }

/-- Embedding of `migrateSchema(dbPath)`: inspect `PRAGMA table_info(sessions)`
and add the `remote_allowed` column with default 0 when it is missing. On a
path with no `sessions` table the pragma reports no columns and the
`ALTER TABLE` raises the wrapped not-writable error. -/
def migrateSchema (s : DbSchema) : Except String DbSchema :=
  let cols := (s.sessionsTable.getD [])
  let hasRemoteAllowed := cols.any (fun c => c.name = "remote_allowed")
  if hasRemoteAllowed then .ok s
  else
    match s.sessionsTable with
    | none => .error "Session database is not writable: no such table: sessions"
    | some existing =>
      let added : ColumnDef :=
        { name := "remote_allowed", sqlType := "INTEGER", notNull := true, dflt := some "0" }
      .ok { s with sessionsTable := some (existing ++ [added]) }

/-- Embedding of `ensureSchema(dbPath) = bootstrapSchema; migrateSchema`. -/
def ensureSchema (s : DbSchema) : Except String DbSchema :=
  migrateSchema (bootstrapSchema s)

/-! ## The operations of the core as a step function on the store state -/

/-- One operation of the core acting on the session store. Lookups and
channel resolution read but never write; `bootstrapOp` models
`bootstrapSchema`, whose `CREATE ... IF NOT EXISTS` statements add no row and
change no existing row; `migrateOp` models `migrateSchema`, whose
`ALTER TABLE ... ADD COLUMN ... DEFAULT 0` initializes the new column of
every pre-existing row to 0. -/
inductive CoreOp where
  | approveOp (key : String)
  | registerOp (thread : ThreadRef) (agentType : String) (sessionId : String) (now : Nat)
  | lookupOp (key : Option String)
  | resolveOp (explicitChannelId : Option String) (context : ToolContext)
      (requireRemoteApproval : Bool) (preferExplicit : Bool)
  | bootstrapOp
  | migrateOp
deriving Repr

/-- The effect of one operation on the row-level store state. -/
def applyOp (config : PluginConfig) (store : SessionStoreState) : CoreOp → SessionStoreState
  | .approveOp key => (approveRemoteSession config store key).2
  | .registerOp thread agentType sessionId now =>
      (registerThreadSession config store thread agentType sessionId now).2
  | .lookupOp _ => store
  | .resolveOp _ _ _ _ => store
  | .bootstrapOp => store
  | .migrateOp =>
      if store.hasCol || !store.writable then store
      else
        { store with
          hasCol := true
          rows := store.rows.map (fun r => { r with remote_allowed := 0 }) }

/-- Well-formedness that every real execution maintains: while the
`remote_allowed` column does not exist, no row carries an approval value
(registration without the column stores no flag and approval cannot update a
missing column). -/
def StoreWF (store : SessionStoreState) : Prop :=
  store.hasCol = false → ∀ r ∈ store.rows, r.remote_allowed = 0

deriving instance DecidableEq for Except

/-! ## Concrete instances used to instantiate the theorems -/

/-- A configuration with the session store enabled and approval required. -/
def wCfg : PluginConfig :=
  { enableSessionStore := true
  , requireRemoteApproval := true
  , defaultChannelId := none
  , databasePath := some "/home/u/.discord_opencode/sessions.db" }

/-- A session record bound to thread `T` under correlation key `k`, not yet
approved. -/
def wRow : SessionRow :=
  { id := "r1"
  , discord_thread_id := some "T"
  , discord_channel_id := some "C"
  , user_id := "u"
  , state := "idle"
  , agent_type := "ask"
  , created_at := 0
  , updated_at := 0
  , opencode_session_id := some "k"
  , project_path := none
  , project_name := none
  , context_encrypted := none
  , context_iv := none
  , context_tag := none
  , remote_allowed := 0 }

/-- A reachable, writable store holding `wRow`, with the approval column. -/
def wStore : SessionStoreState :=
  { reachable := true, writable := true, hasCol := true, rows := [wRow] }

/-- The same store with the record approved. -/
def wStoreApproved : SessionStoreState :=
  { wStore with rows := [{ wRow with remote_allowed := 1 }] }

/-- A tool context carrying correlation key `k`. -/
def wCtx : ToolContext :=
  { agent := none, sessionID := some "k", messageID := none
  , userId := none, channelId := none, threadId := none }

/-- A filesystem view: a 10-byte regular file with one hard link whose
descriptor canonicalizes to `/tmp/a.txt`, with resolvable defaults. -/
def wFs : FsModel :=
  { openOk := true
  , openErrMsg := ""
  , fdRealPathOk := true
  , fdRealPathErrMsg := ""
  , fdRealPath := "/tmp/a.txt"
  , stats := { isFile := true, nlink := 1, size := 10 }
  , content := [104, 105]
  , defaultsResolve := true
  , homeProjectsReal := "/home/u/projects"
  , tmpReal := "/tmp" }

/-- The symlink scenario of the spec: a path under `/tmp` whose descriptor
canonicalizes outside every allowed directory. -/
def wFsSymlink : FsModel :=
  { wFs with fdRealPath := "/etc/passwd" }

/-- The oversized-file scenario of the spec: 9,000,000 bytes. -/
def wFsBig : FsModel :=
  { wFs with stats := { isFile := true, nlink := 1, size := 9000000 } }

/-! ## Theorems -/

/-- C3: for every configuration, context, and session-store state, when
`preferExplicit` is true and a non-empty `explicitChannelId` is supplied,
`resolveChannelId` returns exactly that id with `fromSession = false`; in
this mode the result is the same for any two session-store states and
contexts, depending only on the explicit id. -/
theorem resolveChannelId_prefer_explicit (e : String) (he : e ≠ "") :
    (∀ (config : PluginConfig) (store : SessionStoreState) (context : ToolContext)
        (requireRemoteApproval : Bool),
        resolveChannelId config store (some e) context requireRemoteApproval true =
          .ok { channelId := e, fromSession := false })
    ∧ (∀ (config1 config2 : PluginConfig) (store1 store2 : SessionStoreState)
        (context1 context2 : ToolContext) (rra1 rra2 : Bool),
        resolveChannelId config1 store1 (some e) context1 rra1 true =
          resolveChannelId config2 store2 (some e) context2 rra2 true) := by
  constructor
  · intro config store context requireRemoteApproval
    simp [resolveChannelId, strTruthy, he]
  · intro config1 config2 store1 store2 context1 context2 rra1 rra2
    simp [resolveChannelId, strTruthy, he]

/-- C3 witness at the concrete explicit id `X`. -/
theorem resolveChannelId_prefer_explicit_witness :
    resolveChannelId wCfg wStore (some "X") wCtx true true =
      .ok { channelId := "X", fromSession := false } :=
  (resolveChannelId_prefer_explicit "X" (by decide)).1 wCfg wStore wCtx true

/-- C1: with the session store enabled, a context whose correlation key has a
session record with a thread id on record, the approval condition satisfied
(the record is approved, or approval is not demanded by both the call-site
flag and the global policy), and `preferExplicit` off, `resolveChannelId`
returns the session-bound thread id with `fromSession = true` and does not
raise, whatever `explicitChannelId` was supplied. -/
theorem resolveChannelId_session_binding_wins
    (config : PluginConfig) (store : SessionStoreState)
    (explicitChannelId : Option String) (context : ToolContext)
    (requireRemoteApproval : Bool) (key tid : String) (row : SessionRow)
    (hEnabled : config.enableSessionStore = true)
    (hKey : context.sessionID = some key) (hKeyNe : key ≠ "")
    (hOpen : canOpen config store = true)
    (hCol : store.hasCol = true)
    (hRow : findSessionRow store.rows (some key) = some row)
    (hTid : row.discord_thread_id = some tid) (hTidNe : tid ≠ "")
    (hApproval : row.remote_allowed = 1 ∨ requireRemoteApproval = false ∨
      config.requireRemoteApproval = false) :
    resolveChannelId config store explicitChannelId context requireRemoteApproval false =
      .ok { channelId := tid, fromSession := true } := by
  have hLookup : getThreadIdFromSession config store (some key) =
      some { threadId := some tid, remoteAllowed := row.remote_allowed == 1 } := by
    simp [getThreadIdFromSession, strTruthy, hKeyNe, hEnabled, hOpen, hCol, hRow,
      hTid, jsStrOrNull, hTidNe]
  rcases hApproval with h1 | h2 | h3
  · simp [resolveChannelId, sessionResolution, hEnabled, hKey, strTruthy, hKeyNe,
      hLookup, h1]
  · simp [resolveChannelId, sessionResolution, hEnabled, hKey, strTruthy, hKeyNe,
      hLookup, h2]
  · simp [resolveChannelId, sessionResolution, hEnabled, hKey, strTruthy, hKeyNe,
      hLookup, h3]

/-- C1 witness: approved record, a different non-empty explicit id `X`. -/
theorem resolveChannelId_session_binding_wins_witness :
    resolveChannelId wCfg wStoreApproved (some "X") wCtx true false =
      .ok { channelId := "T", fromSession := true } :=
  resolveChannelId_session_binding_wins wCfg wStoreApproved (some "X") wCtx true
    "k" "T" { wRow with remote_allowed := 1 }
    (by decide) (by decide) (by decide) (by decide) (by decide) (by decide)
    (by decide) (by decide) (Or.inl (by decide))

/-- C2: with a session record whose thread id is on record but whose
`remote_allowed` flag is unset, approval demanded by both the call-site flag
and the configuration: a supplied non-empty `explicitChannelId` is returned
with `fromSession = false`, and with no usable explicit id the resolver
raises the "not approved" failure rather than falling through to the default
channel (for any `preferExplicit`). -/
theorem resolveChannelId_unapproved_session
    (config : PluginConfig) (store : SessionStoreState)
    (explicitChannelId : Option String) (context : ToolContext)
    (preferExplicit : Bool) (key tid : String) (row : SessionRow)
    (hEnabled : config.enableSessionStore = true)
    (hKey : context.sessionID = some key) (hKeyNe : key ≠ "")
    (hOpen : canOpen config store = true)
    (hCol : store.hasCol = true)
    (hRow : findSessionRow store.rows (some key) = some row)
    (hTid : row.discord_thread_id = some tid) (hTidNe : tid ≠ "")
    (hNotAllowed : row.remote_allowed ≠ 1)
    (hCfgRa : config.requireRemoteApproval = true) :
    (∀ e : String, explicitChannelId = some e → e ≠ "" →
      resolveChannelId config store explicitChannelId context true preferExplicit =
        .ok { channelId := e, fromSession := false })
    ∧ (strTruthy explicitChannelId = false →
      resolveChannelId config store explicitChannelId context true preferExplicit =
        .error notApprovedMsg) := by
  have hLookup : getThreadIdFromSession config store (some key) =
      some { threadId := some tid, remoteAllowed := row.remote_allowed == 1 } := by
    simp [getThreadIdFromSession, strTruthy, hKeyNe, hEnabled, hOpen, hCol, hRow,
      hTid, jsStrOrNull, hTidNe]
  have hBeq : (row.remote_allowed == 1) = false := by
    simpa using hNotAllowed
  constructor
  · intro e hE hENe
    subst hE
    cases preferExplicit with
    | true => simp [resolveChannelId, strTruthy, hENe]
    | false =>
      simp [resolveChannelId, sessionResolution, hEnabled, hKey, strTruthy, hKeyNe,
        hLookup, hBeq, hCfgRa, hENe]
  · intro hNoExplicit
    have hKeyTruthy : strTruthy (some key) = true := by simp [strTruthy, hKeyNe]
    simp [resolveChannelId, sessionResolution, hEnabled, hKey, hKeyTruthy,
      hLookup, hBeq, hCfgRa, hNoExplicit]

/-- C2 witness: unapproved record; explicit id `X` succeeds with provenance
explicit, and the same conditions with no explicit id raise. -/
theorem resolveChannelId_unapproved_session_witness :
    resolveChannelId wCfg wStore (some "X") wCtx true false =
      .ok { channelId := "X", fromSession := false } ∧
    resolveChannelId wCfg wStore none wCtx true false = .error notApprovedMsg := by
  have h := resolveChannelId_unapproved_session wCfg wStore (some "X") wCtx false
    "k" "T" wRow (by decide) (by decide) (by decide) (by decide) (by decide)
    (by decide) (by decide) (by decide) (by decide) (by decide)
  have h2 := resolveChannelId_unapproved_session wCfg wStore none wCtx false
    "k" "T" wRow (by decide) (by decide) (by decide) (by decide) (by decide)
    (by decide) (by decide) (by decide) (by decide) (by decide)
  exact ⟨h.1 "X" rfl (by decide), h2.2 (by decide)⟩

/-- C6 counterexample: with the session feature enabled and the store
reachable, a lookup whose key matches no row does not return null — it
returns a record with a null thread id — so "returns null ... if no row
matches" fails on the code, and a no-match is distinguishable from the
store-error case at the return-value level. -/
theorem getThreadIdFromSession_no_match_not_null :
    getThreadIdFromSession wCfg wStore (some "z") =
      some { threadId := none, remoteAllowed := false } ∧
    getThreadIdFromSession wCfg wStore (some "z") ≠ none := by decide

/-- C6 amended: the lookup returns null exactly when the key is absent or
empty, the session feature is disabled, or the store cannot be opened (the
open failure being caught, not propagated); when the store is reachable and
no row matches, it instead returns a non-null record with `threadId = null`
and `remoteAllowed = false`, which is indistinguishable from the null cases
at the thread-id level but not as a return value. -/
theorem getThreadIdFromSession_null_characterization
    (config : PluginConfig) (store : SessionStoreState) (key : Option String) :
    (getThreadIdFromSession config store key = none ↔
      (strTruthy key = false ∨ config.enableSessionStore = false ∨
        canOpen config store = false))
    ∧ (strTruthy key = true → config.enableSessionStore = true →
        canOpen config store = true → findSessionRow store.rows key = none →
        getThreadIdFromSession config store key =
          some { threadId := none, remoteAllowed := false }) := by
  constructor
  · cases hT : strTruthy key <;> cases hE : config.enableSessionStore <;>
      cases hO : canOpen config store <;>
      simp [getThreadIdFromSession, hT, hE, hO]
    all_goals (split <;> simp)
  · intro hT hE hO hNone
    simp [getThreadIdFromSession, hT, hE, hO, hNone, jsStrOrNull]

/-- C6 amended witness: an enabled, reachable store with no matching row. -/
theorem getThreadIdFromSession_null_characterization_witness :
    getThreadIdFromSession wCfg wStore (some "z") =
      some { threadId := none, remoteAllowed := false } :=
  (getThreadIdFromSession_null_characterization wCfg wStore (some "z")).2
    (by decide) (by decide) (by decide) (by decide)

/-- After the approval update, the first row matching the key carries
`remote_allowed = 1`. -/
theorem findSessionRow_approveRows (rows : List SessionRow) (key : String)
    (h : ∃ r ∈ rows, r.opencode_session_id = some key) :
    ∃ r', findSessionRow (approveRows rows key) (some key) = some r' ∧
      r'.remote_allowed = 1 := by
  induction rows with
  | nil => simp at h
  | cons a tl ih =>
    by_cases ha : a.opencode_session_id = some key
    · refine ⟨{ a with remote_allowed := 1 }, ?_, rfl⟩
      have hstep : approveRows (a :: tl) key =
          { a with remote_allowed := 1 } :: approveRows tl key := by
        simp [approveRows, ha]
      have hpa : (({ a with remote_allowed := 1 } : SessionRow).opencode_session_id ==
          some key) = true := by
        simpa using ha
      unfold findSessionRow
      rw [hstep]
      simp [List.find?_cons, hpa]
    · have h' : ∃ r ∈ tl, r.opencode_session_id = some key := by
        rcases h with ⟨r, hr, hrk⟩
        rcases List.mem_cons.mp hr with rfl | hmem
        · exact absurd hrk ha
        · exact ⟨r, hmem, hrk⟩
      rcases ih h' with ⟨r', hf, h1⟩
      refine ⟨r', ?_, h1⟩
      have hpa : (a.opencode_session_id == some key) = false := by
        simpa using ha
      have hstep : approveRows (a :: tl) key = a :: approveRows tl key := by
        simp [approveRows, ha]
      unfold findSessionRow at hf ⊢
      rw [hstep]
      simp [List.find?_cons, hpa]
      exact hf

/-- C7: with the session feature enabled and the store reachable and
writable, `approveRemoteSession` returns true whether or not any row matched
the key — the caller cannot tell an existing session from an unknown key —
and when a row does match, its `remote_allowed` flag is set to 1 so that a
subsequent lookup reports the session approved. -/
theorem approveRemoteSession_silent_success
    (config : PluginConfig) (store : SessionStoreState) (key : String)
    (hEnabled : config.enableSessionStore = true)
    (hOpen : canOpen config store = true)
    (hW : store.writable = true) :
    (approveRemoteSession config store key).1 = true
    ∧ (key ≠ "" → (∃ r ∈ store.rows, r.opencode_session_id = some key) →
        ∃ lk, getThreadIdFromSession config
            (approveRemoteSession config store key).2 (some key) = some lk ∧
          lk.remoteAllowed = true) := by
  have hEns : ensureRemoteApprovalColumn store =
      { store with hasCol := true } := by
    unfold ensureRemoteApprovalColumn
    cases hc : store.hasCol
    · simp [hc, hW]
    · have he : ({ store with hasCol := true } : SessionStoreState) = store := by
        rw [← hc]
      rw [he]
      simp [hc]
  have hApp : approveRemoteSession config store key =
      (true, { store with hasCol := true, rows := approveRows store.rows key }) := by
    unfold approveRemoteSession
    simp [hEnabled, hOpen, hEns, hW]
  constructor
  · rw [hApp]
  · intro hKeyNe hMatch
    rcases findSessionRow_approveRows store.rows key hMatch with ⟨r', hf, h1⟩
    rw [hApp]
    have hOpen2 : canOpen config
        { store with hasCol := true, rows := approveRows store.rows key } = true := by
      simpa [canOpen] using hOpen
    refine ⟨{ threadId := jsStrOrNull r'.discord_thread_id
            , remoteAllowed := true }, ?_, rfl⟩
    simp [getThreadIdFromSession, strTruthy, hKeyNe, hEnabled, hOpen2, hf, h1]

/-- C7 witness: approving key `k` (one matching row) and checking the
subsequent lookup reports approval. -/
theorem approveRemoteSession_silent_success_witness :
    (approveRemoteSession wCfg wStore "k").1 = true ∧
    ∃ lk, getThreadIdFromSession wCfg (approveRemoteSession wCfg wStore "k").2
        (some "k") = some lk ∧ lk.remoteAllowed = true := by
  have h := approveRemoteSession_silent_success wCfg wStore "k"
    (by decide) (by decide) (by decide)
  exact ⟨h.1, h.2 (by decide) ⟨wRow, by decide, by decide⟩⟩

/-- The recorded index name is a member after `CREATE INDEX IF NOT EXISTS`. -/
theorem mem_createIndexIfAbsent_self (l : List String) (n : String) :
    n ∈ createIndexIfAbsent l n := by
  unfold createIndexIfAbsent
  split
  · assumption
  · simp

/-- The statement `CREATE INDEX IF NOT EXISTS` preserves existing index names. -/
theorem mem_createIndexIfAbsent_of_mem (l : List String) (n m : String)
    (h : m ∈ l) : m ∈ createIndexIfAbsent l n := by
  unfold createIndexIfAbsent
  split
  · exact h
  · exact List.mem_append_left _ h

/-- The statement `CREATE INDEX IF NOT EXISTS` is a no-op on a present index. -/
theorem createIndexIfAbsent_mem (l : List String) (n : String) (h : n ∈ l) :
    createIndexIfAbsent l n = l := by
  unfold createIndexIfAbsent
  simp [h]

/-- Both index names are present after any bootstrap. -/
theorem bootstrapSchema_indexes_mem (s : DbSchema) :
    "idx_sessions_opencode_session_id" ∈ (bootstrapSchema s).indexes ∧
    "idx_sessions_discord_thread_id" ∈ (bootstrapSchema s).indexes := by
  unfold bootstrapSchema
  exact ⟨mem_createIndexIfAbsent_of_mem _ _ _ (mem_createIndexIfAbsent_self _ _),
    mem_createIndexIfAbsent_self _ _⟩

/-- Bootstrapping an already-bootstrapped store changes nothing. -/
theorem bootstrapSchema_idem (s : DbSchema) :
    bootstrapSchema (bootstrapSchema s) = bootstrapSchema s := by
  have hmem := bootstrapSchema_indexes_mem s
  have hidx : createIndexIfAbsent
      (createIndexIfAbsent (bootstrapSchema s).indexes
        "idx_sessions_opencode_session_id")
      "idx_sessions_discord_thread_id" = (bootstrapSchema s).indexes := by
    rw [createIndexIfAbsent_mem _ _ hmem.1]
    exact createIndexIfAbsent_mem _ _ hmem.2
  show DbSchema.mk
      (some ((bootstrapSchema s).sessionsTable.getD sessionsTableColumns))
      (createIndexIfAbsent
        (createIndexIfAbsent (bootstrapSchema s).indexes
          "idx_sessions_opencode_session_id")
        "idx_sessions_discord_thread_id")
      true = bootstrapSchema s
  rw [hidx]
  rfl

/-- Running `ensureSchema` always succeeds and reaches a fixed point: running it
again returns the same schema with no error. -/
theorem ensureSchema_fixed_point (s : DbSchema) :
    ∃ s', ensureSchema s = .ok s' ∧ ensureSchema s' = .ok s' := by
  by_cases hcol : (s.sessionsTable.getD sessionsTableColumns).any
      (fun c => c.name = "remote_allowed")
  · refine ⟨bootstrapSchema s, ?_, ?_⟩
    · unfold ensureSchema migrateSchema
      simp [bootstrapSchema, hcol]
    · unfold ensureSchema
      rw [bootstrapSchema_idem]
      unfold migrateSchema
      simp [bootstrapSchema, hcol]
  · have hmem := bootstrapSchema_indexes_mem s
    refine ⟨{ bootstrapSchema s with
        sessionsTable := some ((s.sessionsTable.getD sessionsTableColumns) ++
          [{ name := "remote_allowed", sqlType := "INTEGER", notNull := true,
             dflt := some "0" }]) }, ?_, ?_⟩
    · unfold ensureSchema migrateSchema
      simp [bootstrapSchema, hcol]
    · unfold ensureSchema
      have hboot : bootstrapSchema { bootstrapSchema s with
          sessionsTable := some ((s.sessionsTable.getD sessionsTableColumns) ++
            [{ name := "remote_allowed", sqlType := "INTEGER", notNull := true,
               dflt := some "0" }]) } =
          { bootstrapSchema s with
            sessionsTable := some ((s.sessionsTable.getD sessionsTableColumns) ++
              [{ name := "remote_allowed", sqlType := "INTEGER", notNull := true,
                 dflt := some "0" }]) } := by
        have hidx : createIndexIfAbsent
            (createIndexIfAbsent (bootstrapSchema s).indexes
              "idx_sessions_opencode_session_id")
            "idx_sessions_discord_thread_id" = (bootstrapSchema s).indexes := by
          rw [createIndexIfAbsent_mem _ _ hmem.1]
          exact createIndexIfAbsent_mem _ _ hmem.2
        have hidx2 : createIndexIfAbsent (createIndexIfAbsent
            (createIndexIfAbsent (createIndexIfAbsent s.indexes
              "idx_sessions_opencode_session_id") "idx_sessions_discord_thread_id")
            "idx_sessions_opencode_session_id") "idx_sessions_discord_thread_id" =
            createIndexIfAbsent (createIndexIfAbsent s.indexes
              "idx_sessions_opencode_session_id") "idx_sessions_discord_thread_id" :=
          hidx
        unfold bootstrapSchema
        simp only [Option.getD_some]
        rw [hidx2]
      rw [hboot]
      unfold migrateSchema
      simp

/-- C8: bootstrap on a fresh path creates the sessions table with every
column of the data model — `remote_allowed` included, defaulting to 0 — both
lookup indexes, and write-ahead-log mode; bootstrapping again changes
nothing, and `ensureSchema` (bootstrap then migrate) always succeeds and is
a fixed point on its own output, so a second run raises no error and
duplicates no table, column, or index. -/
theorem schema_bootstrap_ensure_idempotent :
    ((bootstrapSchema freshSchema).sessionsTable = some sessionsTableColumns
      ∧ ({ name := "remote_allowed", sqlType := "INTEGER", notNull := true,
           dflt := some "0" } : ColumnDef) ∈ sessionsTableColumns
      ∧ (bootstrapSchema freshSchema).indexes =
          ["idx_sessions_opencode_session_id", "idx_sessions_discord_thread_id"]
      ∧ (bootstrapSchema freshSchema).walMode = true)
    ∧ (∀ s : DbSchema, bootstrapSchema (bootstrapSchema s) = bootstrapSchema s)
    ∧ (∀ s : DbSchema, ∃ s', ensureSchema s = .ok s' ∧ ensureSchema s' = .ok s') :=
  ⟨by decide, bootstrapSchema_idem, ensureSchema_fixed_point⟩

/-- Adding the approval column leaves the rows untouched. -/
theorem ensureRemoteApprovalColumn_rows (store : SessionStoreState) :
    (ensureRemoteApprovalColumn store).rows = store.rows := by
  unfold ensureRemoteApprovalColumn
  split
  · rfl
  · split <;> rfl

/-- Adding the approval column preserves well-formedness. -/
theorem ensureRemoteApprovalColumn_wf (store : SessionStoreState)
    (hWF : StoreWF store) : StoreWF (ensureRemoteApprovalColumn store) := by
  unfold ensureRemoteApprovalColumn
  split
  · exact hWF
  · split
    · intro h
      simp at h
    · exact hWF

/-- The approval update keeps every approved row approved, id for id. -/
theorem approveRows_keeps_approved (rows : List SessionRow) (key : String)
    (r : SessionRow) (hr : r ∈ rows) (h1 : r.remote_allowed = 1) :
    ∃ r' ∈ approveRows rows key, r'.id = r.id ∧ r'.remote_allowed = 1 := by
  refine ⟨_, List.mem_map_of_mem _ hr, ?_, ?_⟩
  · by_cases hk : r.opencode_session_id = some key <;> simp [hk]
  · by_cases hk : r.opencode_session_id = some key <;> simp [hk, h1]

/-- Approval (`approveRemoteSession`) preserves well-formedness and never clears an
approved row. -/
theorem approveRemoteSession_preserves (config : PluginConfig)
    (store : SessionStoreState) (key : String) (hWF : StoreWF store) :
    StoreWF (approveRemoteSession config store key).2
    ∧ ∀ r ∈ store.rows, r.remote_allowed = 1 →
        ∃ r' ∈ (approveRemoteSession config store key).2.rows,
          r'.id = r.id ∧ r'.remote_allowed = 1 := by
  unfold approveRemoteSession
  by_cases hE : config.enableSessionStore = true
  · by_cases hO : canOpen config store = true
    · cases hcw : ((ensureRemoteApprovalColumn store).hasCol &&
          (ensureRemoteApprovalColumn store).writable)
      · simp [hE, hO, hcw]
        refine ⟨ensureRemoteApprovalColumn_wf store hWF, ?_⟩
        intro r hr h1
        exact ⟨r, by rw [ensureRemoteApprovalColumn_rows]; exact hr, rfl, h1⟩
      · simp [hE, hO, hcw]
        constructor
        · intro h
          have hc := hcw
          simp only [Bool.and_eq_true] at hc
          rw [hc.1] at h
          cases h
        · intro r hr h1
          rw [ensureRemoteApprovalColumn_rows]
          exact approveRows_keeps_approved store.rows key r hr h1
    · simp [hE, hO]
      exact ⟨hWF, fun r hr h1 => ⟨r, hr, rfl, h1⟩⟩
  · simp [hE]
    exact ⟨hWF, fun r hr h1 => ⟨r, hr, rfl, h1⟩⟩

/-- Registration (`registerThreadSession`) preserves well-formedness, never touches an
existing row, and at most appends one fresh row carrying
`remote_allowed = 0`. -/
theorem registerThreadSession_preserves (config : PluginConfig)
    (store : SessionStoreState) (thread : ThreadRef) (agentType : String)
    (sessionId : String) (now : Nat) (hWF : StoreWF store) :
    StoreWF (registerThreadSession config store thread agentType sessionId now).2
    ∧ (∀ r ∈ store.rows, r.remote_allowed = 1 →
        ∃ r' ∈ (registerThreadSession config store thread agentType sessionId now).2.rows,
          r'.id = r.id ∧ r'.remote_allowed = 1)
    ∧ ((registerThreadSession config store thread agentType sessionId now).2.rows =
          store.rows ∨
        (registerThreadSession config store thread agentType sessionId now).2.rows =
          store.rows ++ [newSessionRow thread agentType sessionId now]) := by
  have hid : ∀ s' : SessionStoreState, s'.rows = store.rows →
      StoreWF s' → StoreWF s'
        ∧ (∀ r ∈ store.rows, r.remote_allowed = 1 →
            ∃ r' ∈ s'.rows, r'.id = r.id ∧ r'.remote_allowed = 1)
        ∧ (s'.rows = store.rows ∨ s'.rows =
            store.rows ++ [newSessionRow thread agentType sessionId now]) := by
    intro s' hrows hwf
    exact ⟨hwf, fun r hr h1 => ⟨r, by rw [hrows]; exact hr, rfl, h1⟩, Or.inl hrows⟩
  unfold registerThreadSession
  by_cases hE : config.enableSessionStore = true
  · by_cases hO : canOpen config store = true
    · by_cases hw : store.writable = true
      · cases hdup : (ensureRemoteApprovalColumn store).rows.any
            (fun r => r.id == sessionId)
        · cases hpar : thread.parentId.isNone
          · simp [hE, hO, hw, hdup, hpar]
            have hcol : (ensureRemoteApprovalColumn store).hasCol = true := by
              unfold ensureRemoteApprovalColumn
              split
              · assumption
              · simp [hw]
            refine ⟨?_, ?_, ?_⟩
            · intro h
              rw [hcol] at h
              cases h
            · intro r hr h1
              refine ⟨r, Or.inl ?_, rfl, h1⟩
              rw [ensureRemoteApprovalColumn_rows]
              exact hr
            · right
              rw [ensureRemoteApprovalColumn_rows]
          · simp [hE, hO, hw, hdup, hpar]
            exact hid _ (ensureRemoteApprovalColumn_rows store)
              (ensureRemoteApprovalColumn_wf store hWF)
        · simp [hE, hO, hw, hdup]
          exact hid _ (ensureRemoteApprovalColumn_rows store)
            (ensureRemoteApprovalColumn_wf store hWF)
      · simp [hE, hO, hw]
        exact ⟨hWF, fun r hr h1 => ⟨r, hr, rfl, h1⟩⟩
    · simp [hE, hO]
      exact ⟨hWF, fun r hr h1 => ⟨r, hr, rfl, h1⟩⟩
  · simp [hE]
    exact ⟨hWF, fun r hr h1 => ⟨r, hr, rfl, h1⟩⟩

/-- C9: across every operation of the core, approval is one-way: once a row
carries `remote_allowed = 1` it keeps it — approval only writes 1,
registration only appends one fresh row carrying 0 and never modifies an
existing row, lookups and resolution write nothing, bootstrap adds no rows,
and migration only initializes a newly added column. Stated over any
well-formed store (while the column is absent no row carries an approval
value), every previously approved row is still approved, id for id, after
any operation. -/
theorem remote_allowed_one_way (config : PluginConfig)
    (store : SessionStoreState) (op : CoreOp) (hWF : StoreWF store) :
    StoreWF (applyOp config store op)
    ∧ (∀ r ∈ store.rows, r.remote_allowed = 1 →
        ∃ r' ∈ (applyOp config store op).rows, r'.id = r.id ∧ r'.remote_allowed = 1)
    ∧ (∀ (thread : ThreadRef) (agentType sessionId : String) (now : Nat),
        ((registerThreadSession config store thread agentType sessionId now).2.rows =
            store.rows ∨
          (registerThreadSession config store thread agentType sessionId now).2.rows =
            store.rows ++ [newSessionRow thread agentType sessionId now])
        ∧ (newSessionRow thread agentType sessionId now).remote_allowed = 0) := by
  have hmain : StoreWF (applyOp config store op)
      ∧ ∀ r ∈ store.rows, r.remote_allowed = 1 →
          ∃ r' ∈ (applyOp config store op).rows,
            r'.id = r.id ∧ r'.remote_allowed = 1 := by
    cases op with
    | approveOp key =>
      exact approveRemoteSession_preserves config store key hWF
    | registerOp thread agentType sessionId now =>
      have h := registerThreadSession_preserves config store thread agentType
        sessionId now hWF
      exact ⟨h.1, h.2.1⟩
    | lookupOp key =>
      exact ⟨hWF, fun r hr h1 => ⟨r, hr, rfl, h1⟩⟩
    | resolveOp e ctx rra pe =>
      exact ⟨hWF, fun r hr h1 => ⟨r, hr, rfl, h1⟩⟩
    | bootstrapOp =>
      exact ⟨hWF, fun r hr h1 => ⟨r, hr, rfl, h1⟩⟩
    | migrateOp =>
      unfold applyOp
      cases hc : (store.hasCol || !store.writable)
      · simp [hc]
        have hcol : store.hasCol = false := by
          have := hc
          simp only [Bool.or_eq_false_iff] at this
          exact this.1
        constructor
        · intro h
          cases h
        · intro r hr h1
          have h0 := hWF hcol r hr
          rw [h0] at h1
          cases h1
      · simp [hc]
        exact ⟨hWF, fun r hr h1 => ⟨r, hr, rfl, h1⟩⟩
  refine ⟨hmain.1, hmain.2, ?_⟩
  intro thread agentType sessionId now
  exact ⟨(registerThreadSession_preserves config store thread agentType
    sessionId now hWF).2.2, rfl⟩

/-- C9 witness: approving an unrelated key on a store holding an approved
row keeps that row approved. -/
theorem remote_allowed_one_way_witness :
    ∃ r' ∈ (applyOp wCfg wStoreApproved (.approveOp "z")).rows,
      r'.id = "r1" ∧ r'.remote_allowed = 1 := by
  have h := remote_allowed_one_way wCfg wStoreApproved (.approveOp "z")
    (by intro hc; cases hc)
  exact h.2.1 { wRow with remote_allowed := 1 } (by decide) (by decide)

/-- C4: when a non-empty allowed-prefix list is supplied, any success result
of `validateFileAccess` returns the canonicalized location of the opened
descriptor, and that location equals — or sits under, as
`prefix + '/'` — one of the allowed prefixes with trailing slashes stripped;
and a canonical path outside every prefix (a symlink target included) is
rejected with an error naming the real path. -/
theorem validateFileAccess_prefix_containment
    (fs : FsModel) (ps : List String) (maxBytes : Nat) (hps : ps ≠ []) :
    (∀ buf rp, validateFileAccess fs (some ps) maxBytes = .ok buf rp →
      rp = fs.fdRealPath ∧
      ∃ p ∈ ps, rp = stripTrailingSlashes p ∨
        strStartsWith rp (stripTrailingSlashes p ++ "/") = true)
    ∧ (fs.openOk = true → fs.fdRealPathOk = true →
        validateRealPath fs.fdRealPath = none →
        isPathAllowed fs.fdRealPath ps = false →
        validateFileAccess fs (some ps) maxBytes =
          .err ("Error: File must be in allowed directory. Real path: " ++
            fs.fdRealPath)) := by
  have hne : ps.isEmpty = false := by
    cases ps
    · exact absurd rfl hps
    · rfl
  constructor
  · intro buf rp h
    cases hOpen : fs.openOk with
    | false => simp [validateFileAccess, validateFileAccessT, hOpen] at h
    | true =>
    cases hRp : fs.fdRealPathOk with
    | false => simp [validateFileAccess, validateFileAccessT, hOpen, hRp] at h
    | true =>
    cases hDel : validateRealPath fs.fdRealPath with
    | some e =>
      simp [validateFileAccess, validateFileAccessT, hOpen, hRp, hDel] at h
    | none =>
    cases hAllow : isPathAllowed fs.fdRealPath ps with
    | false =>
      simp [validateFileAccess, validateFileAccessT, hOpen, hRp, hDel, hne,
        hAllow] at h
    | true =>
    cases hStats : validateFileStats fs.stats maxBytes with
    | some e =>
      simp [validateFileAccess, validateFileAccessT, hOpen, hRp, hDel, hne,
        hAllow, hStats] at h
    | none =>
      simp [validateFileAccess, validateFileAccessT, hOpen, hRp, hDel, hne,
        hAllow, hStats] at h
      refine ⟨h.2.symm, ?_⟩
      rw [← h.2]
      have := hAllow
      simp [isPathAllowed, List.any_eq_true, List.mem_map] at this
      rcases this with ⟨p, hp, hcase⟩
      exact ⟨p, hp, hcase⟩
  · intro hOpen hRp hDel hAllow
    simp [validateFileAccess, validateFileAccessT, hOpen, hRp, hDel, hne, hAllow]

/-- C4 witness: a regular file canonicalizing to `/tmp/a.txt` under allowed
list `["/tmp"]` is accepted with containment, and a path canonicalizing to
`/etc/passwd` (the symlink scenario) is rejected naming the real path. -/
theorem validateFileAccess_prefix_containment_witness :
    ("/tmp/a.txt" = wFs.fdRealPath ∧
      ∃ p ∈ ["/tmp"], "/tmp/a.txt" = stripTrailingSlashes p ∨
        strStartsWith "/tmp/a.txt" (stripTrailingSlashes p ++ "/") = true)
    ∧ validateFileAccess wFsSymlink (some ["/tmp"]) MAX_FILE_BYTES =
        .err ("Error: File must be in allowed directory. Real path: " ++
          wFsSymlink.fdRealPath) :=
  ⟨(validateFileAccess_prefix_containment wFs ["/tmp"] MAX_FILE_BYTES
      (by decide)).1 [104, 105] "/tmp/a.txt" (by decide),
   (validateFileAccess_prefix_containment wFsSymlink ["/tmp"] MAX_FILE_BYTES
      (by decide)).2 (by decide) (by decide) (by decide) (by decide)⟩

/-- A conditional whose rejecting branch is an error with a cleared read
flag keeps the flag equivalent to success. -/
theorem errBranchFlagIff (c : Prop) [Decidable c] (m1 : String)
    (x : FileAccessResult × Bool)
    (hx : x.2 = true ↔ ∃ buf rp, x.1 = .ok buf rp) :
    ((if c then (FileAccessResult.err m1, false) else x).2 = true ↔
      ∃ buf rp,
        (if c then (FileAccessResult.err m1, false) else x).1 = .ok buf rp) := by
  by_cases h : c <;> simp [h, hx]

/-- C5: every stats rejection carries the descriptive message of the check
that failed — non-regular file, hard-link count (naming the count), or size
(naming both the limit and the actual size in megabytes) — the content read
happens exactly on success (never on a rejection path), and when all path
checks pass, a stats failure is surfaced verbatim as the result. -/
theorem validateFileAccess_checks_before_read
    (fs : FsModel) (ap : Option (List String)) (maxBytes : Nat) :
    ((validateFileAccessT fs ap maxBytes).2 = true ↔
      ∃ buf rp, (validateFileAccessT fs ap maxBytes).1 = .ok buf rp)
    ∧ (∀ stats : FileStats,
        (stats.isFile = false →
          validateFileStats stats maxBytes = some "Error: Not a regular file")
        ∧ (stats.isFile = true → stats.nlink > 1 →
          validateFileStats stats maxBytes =
            some ("Error: File has multiple hardlinks (" ++ toString stats.nlink ++
              "), refusing for security"))
        ∧ (stats.isFile = true → stats.nlink ≤ 1 → stats.size > maxBytes →
          validateFileStats stats maxBytes =
            some ("Error: File exceeds " ++ mbFixed0 maxBytes ++ "MB limit (" ++
              mbFixed2 stats.size ++ "MB)")))
    ∧ (∀ ps : List String, fs.openOk = true → fs.fdRealPathOk = true →
        validateRealPath fs.fdRealPath = none → ps ≠ [] →
        isPathAllowed fs.fdRealPath ps = true →
        ∀ e, validateFileStats fs.stats maxBytes = some e →
        validateFileAccess fs (some ps) maxBytes = .err e) := by
  refine ⟨?_, ?_, ?_⟩
  · unfold validateFileAccessT
    repeat' split
    all_goals first
      | (apply errBranchFlagIff; simp)
      | simp
  · intro stats
    refine ⟨?_, ?_, ?_⟩
    · intro hf
      simp [validateFileStats, hf]
    · intro hf hn
      simp [validateFileStats, hf, hn]
    · intro hf hn hs
      simp [validateFileStats, hf, Nat.not_lt.mpr hn, hs]
  · intro ps hOpen hRp hDel hps hAllow e hStats
    have hne : ps.isEmpty = false := by
      cases ps
      · exact absurd rfl hps
      · rfl
    simp [validateFileAccess, validateFileAccessT, hOpen, hRp, hDel, hne,
      hAllow, hStats]

/-- C5 witness: the 9,000,000-byte file against the 8,388,608-byte limit is
rejected with the size error naming both figures, and the read flag matches
success on both a rejecting and an accepting run. -/
theorem validateFileAccess_checks_before_read_witness :
    validateFileStats wFsBig.stats MAX_FILE_BYTES =
      some "Error: File exceeds 8MB limit (8.58MB)"
    ∧ validateFileAccess wFsBig (some ["/tmp"]) MAX_FILE_BYTES =
        .err "Error: File exceeds 8MB limit (8.58MB)"
    ∧ (validateFileAccessT wFsBig (some ["/tmp"]) MAX_FILE_BYTES).2 = false
    ∧ (validateFileAccessT wFs (some ["/tmp"]) MAX_FILE_BYTES).2 = true := by
  have h := validateFileAccess_checks_before_read wFsBig (some ["/tmp"])
    MAX_FILE_BYTES
  have hStats : validateFileStats wFsBig.stats MAX_FILE_BYTES =
      some "Error: File exceeds 8MB limit (8.58MB)" :=
    (h.2.1 wFsBig.stats).2.2 (by decide) (by decide) (by decide)
  have hErr := h.2.2 ["/tmp"] (by decide) (by decide) (by decide) (by decide)
    (by decide) _ hStats
  have hFlag : (validateFileAccessT wFsBig (some ["/tmp"]) MAX_FILE_BYTES).2 = false := by
    cases hv : (validateFileAccessT wFsBig (some ["/tmp"]) MAX_FILE_BYTES).2 with
    | false => rfl
    | true =>
      rcases h.1.mp hv with ⟨buf, rp, hok⟩
      rw [show (validateFileAccessT wFsBig (some ["/tmp"]) MAX_FILE_BYTES).1 =
        validateFileAccess wFsBig (some ["/tmp"]) MAX_FILE_BYTES from rfl, hErr] at hok
      cases hok
  have h2 := validateFileAccess_checks_before_read wFs (some ["/tmp"]) MAX_FILE_BYTES
  have hFlag2 : (validateFileAccessT wFs (some ["/tmp"]) MAX_FILE_BYTES).2 = true :=
    h2.1.mpr ⟨[104, 105], "/tmp/a.txt", by decide⟩
  exact ⟨hStats, hErr, hFlag, hFlag2⟩

/-- C10: with an absent or empty allowed-prefix list, `validateFileAccess`
neither rejects nor accepts everything: when the two default prefixes —
the canonicalized `projects` directory under the home directory and the
canonicalized `/tmp` — resolve, the call behaves exactly as if that
two-element default list had been supplied, and when resolving them fails
(the other checks before that point passing), every file is rejected with
the configuration error. -/
theorem validateFileAccess_default_prefixes
    (fs : FsModel) (ap : Option (List String)) (maxBytes : Nat)
    (hEmpty : ap = none ∨ ap = some []) :
    (fs.defaultsResolve = true →
      validateFileAccess fs ap maxBytes =
        validateFileAccess fs (some [fs.homeProjectsReal, fs.tmpReal]) maxBytes)
    ∧ (fs.defaultsResolve = false → fs.openOk = true → fs.fdRealPathOk = true →
        validateRealPath fs.fdRealPath = none →
        validateFileAccess fs ap maxBytes =
          .err "Error: Server configuration error - allowed paths not resolvable") := by
  constructor
  · intro hDef
    rcases hEmpty with rfl | rfl <;>
      simp [validateFileAccess, validateFileAccessT, hDef]
  · intro hDef hOpen hRp hDel
    rcases hEmpty with rfl | rfl <;>
      simp [validateFileAccess, validateFileAccessT, hDef, hOpen, hRp, hDel]

/-- C10 witness: with no supplied prefixes and resolvable defaults the
result matches the defaulted call (and that call accepts the `/tmp` file),
while unresolvable defaults produce the configuration error. -/
theorem validateFileAccess_default_prefixes_witness :
    (validateFileAccess wFs none MAX_FILE_BYTES =
      validateFileAccess wFs (some [wFs.homeProjectsReal, wFs.tmpReal])
        MAX_FILE_BYTES)
    ∧ validateFileAccess wFs (some []) MAX_FILE_BYTES =
        .ok [104, 105] "/tmp/a.txt"
    ∧ validateFileAccess { wFs with defaultsResolve := false } none
        MAX_FILE_BYTES =
        .err "Error: Server configuration error - allowed paths not resolvable" := by
  refine ⟨?_, ?_, ?_⟩
  · exact (validateFileAccess_default_prefixes wFs none MAX_FILE_BYTES
      (Or.inl rfl)).1 (by decide)
  · have h := (validateFileAccess_default_prefixes wFs (some []) MAX_FILE_BYTES
      (Or.inr rfl)).1 (by decide)
    rw [h]
    decide
  · exact (validateFileAccess_default_prefixes { wFs with defaultsResolve := false }
      none MAX_FILE_BYTES (Or.inl rfl)).2 (by decide) (by decide) (by decide)
      (by decide)
